import Mathlib

/-!
Verification of the session-ticket / attendance-admission core of the
smart-attendance system (Express + Mongoose backend).

Shallow embedding conventions:
* instants are integers (milliseconds since the epoch); a calendar date is
  its midnight instant; an HH:MM time-of-day is minutes since midnight;
* Mongo ObjectIds and QR tokens are natural numbers;
* JS floats (similarity scores, confidences) are rationals;
* the stores (the `sessions` and `attendances` collections) are lists of
  documents; the compound unique index on (student, session) is modelled by
  an insert that fails when the pair is already present;
* `Math.sqrt` is an abstract parameter of the cosine-similarity function.
-/

namespace SIH

/-! ## Data model: models/Session.js and models/Attendance.js -/

/-- A document of the `sessions` collection (models/Session.js).
`date` is the midnight instant of the calendar date; `startMin` / `endMin`
are the parsed `startTime` / `endTime` strings in minutes since midnight. -/
structure Session where
  id : Nat
  teacher : Nat
  date : Int
  startMin : Nat
  endMin : Nat
  qrToken : Nat
  isActive : Bool
  expiresAt : Int
  maxStudents : Nat
  attendanceCount : Int
  deriving DecidableEq, Repr

/-- `status` enum of the attendance schema. -/
inductive Status where
  | present
  | absent
  | late
  deriving DecidableEq, Repr

/-- `method` enum of the attendance schema. -/
inductive Method where
  | qr_code
  | face_recognition
  | manual
  deriving DecidableEq, Repr

/-- A document of the `attendances` collection (models/Attendance.js). -/
structure Attendance where
  student : Nat
  session : Nat
  status : Status
  markedAt : Int
  method : Method
  faceConfidence : Option ℚ
  isVerified : Bool
  deriving DecidableEq, Repr

/-- The session start instant: the session date plus its start time of day
(`new Date(session.date)` with hours/minutes set from `startTime`). -/
def sessionStart (s : Session) : Int :=
  s.date + (s.startMin : Int) * 60000

/-- The `isLate` virtual of the attendance schema: false when the session
reference cannot be resolved, otherwise true exactly when `markedAt` is
strictly after the session start plus 15 minutes. -/
def isLate (sess : Option Session) (a : Attendance) : Bool :=
  match sess with
  | none => false
  | some s => decide (sessionStart s + 15 * 60000 < a.markedAt)

/-- The attendance schema pre-save middleware: rewrites a `present` status to
`late` when the `isLate` virtual holds. -/
def preSave (sess : Option Session) (a : Attendance) : Attendance :=
  if isLate sess a && (a.status == .present) then { a with status := .late } else a

/-- `isExpired` virtual of the session schema: `new Date() > this.expiresAt`. -/
def isExpired (s : Session) (now : Int) : Bool :=
  decide (s.expiresAt < now)

/-- `isValid` method of the session schema: `this.isActive && !this.isExpired`. -/
def isValid (s : Session) (now : Int) : Bool :=
  s.isActive && !(isExpired s now)

/-! ## SimilarityScorer: calculateCosineSimilarity in the face-recognition
route file -/

/-- The dot-product accumulation of the similarity loop. -/
def dotProduct (e1 e2 : List ℚ) : ℚ :=
  (List.zipWith (fun x y => x * y) e1 e2).sum

/-- The squared-norm accumulation of the similarity loop. -/
def sumSquares (e : List ℚ) : ℚ :=
  (e.map fun x => x * x).sum

/-- Error raised by `calculateCosineSimilarity` on a length mismatch. -/
inductive SimErr where
  | dimensionMismatch
  deriving DecidableEq, Repr

/-- `calculateCosineSimilarity(embedding1, embedding2)`: throws on length
mismatch, accumulates the dot product and the two squared norms, takes square
roots (`Math.sqrt`, abstracted as the parameter `sqrtf`), returns `0` when
either norm is zero, otherwise the quotient. -/
def calculateCosineSimilarity (sqrtf : ℚ → ℚ) (e1 e2 : List ℚ) :
    Except SimErr ℚ :=
  if e1.length ≠ e2.length then .error .dimensionMismatch
  else if sqrtf (sumSquares e1) = 0 ∨ sqrtf (sumSquares e2) = 0 then .ok 0
  else .ok (dotProduct e1 e2 / (sqrtf (sumSquares e1) * sqrtf (sumSquares e2)))

/-! ## POST /api/attendance/scan-qr handler -/

/-- The authenticated user document, restricted to the fields the scan-qr
handler reads (`req.user`). -/
structure UserDoc where
  id : Nat
  faceEmbedding : List ℚ
  deriving DecidableEq, Repr

/-- The request body of POST /api/attendance/scan-qr after validation:
`qrData.sessionId`, `qrData.token`, `method`, optional `faceConfidence`. -/
structure ScanReq where
  sessionId : Nat
  token : Nat
  method : Method
  faceConfidence : Option ℚ
  deriving DecidableEq, Repr

/-- Outcome of one scan-qr request, one constructor per response branch of
the handler. `serverError` is the catch-all 500 branch. -/
inductive ScanResult where
  | invalidTicket
  | expired
  | notStarted
  | duplicate (existing : Attendance)
  | faceNotRegistered
  | lowConfidence
  | accepted (record : Attendance)
  | serverError
  deriving DecidableEq, Repr

/-- `Session.findOne({ _id: sessionId, qrToken: token, isActive: true })`. -/
def findSession (sessions : List Session) (sid tok : Nat) : Option Session :=
  sessions.find? fun s => s.id == sid && s.qrToken == tok && s.isActive

/-- `Attendance.findOne({ student, session })`. -/
def findAttendance (recs : List Attendance) (student sid : Nat) :
    Option Attendance :=
  recs.find? fun a => a.student == student && a.session == sid

/-- Default of `process.env.FACE_RECOGNITION_THRESHOLD || 0.6`. -/
def FACE_RECOGNITION_THRESHOLD : ℚ := mkRat 6 10

/-- The hard-coded 0.8 secondary threshold of the `isVerified` assignment. -/
def VERIFIED_THRESHOLD : ℚ := mkRat 8 10

/-- The attendance document built by the handler before saving: default
status `present`, `markedAt` defaulting to the current instant, and the
`isVerified` value computed by the handler. -/
def mkAttendance (student sid : Nat) (m : Method) (fc : Option ℚ)
    (verified : Bool) (now : Int) : Attendance :=
  { student := student, session := sid, status := .present, markedAt := now,
    method := m, faceConfidence := fc, isVerified := verified }

/-- The decision logic of the POST /api/attendance/scan-qr handler: session
lookup by id + token + active, expiry check, not-started check, duplicate
check, face-registration and confidence checks for `face_recognition`
(`!faceConfidence || faceConfidence < threshold`), and construction of the
record that is saved (the pre-save middleware classifying it late applied
with the session schedule). -/
def scanQr (threshold : ℚ) (sessions : List Session) (recs : List Attendance)
    (user : UserDoc) (req : ScanReq) (now : Int) : ScanResult :=
  match findSession sessions req.sessionId req.token with
  | none => .invalidTicket
  | some session =>
    if session.expiresAt < now then .expired
    else if now < sessionStart session then .notStarted
    else
      match findAttendance recs user.id req.sessionId with
      | some existing => .duplicate existing
      | none =>
        match req.method with
        | .face_recognition =>
          if user.faceEmbedding.length = 0 then .faceNotRegistered
          else
            match req.faceConfidence with
            | none => .lowConfidence
            | some c =>
              if c = 0 ∨ c < threshold then .lowConfidence
              else
                .accepted (preSave (some session)
                  (mkAttendance user.id req.sessionId .face_recognition
                    (some c) (decide (VERIFIED_THRESHOLD ≤ c)) now))
        | m =>
          .accepted (preSave (some session)
            (mkAttendance user.id req.sessionId m req.faceConfidence true now))

/-! ## Stateful execution: the record store and the count update -/

/-- Insertion through the compound unique index
`attendanceSchema.index({ student: 1, session: 1 }, { unique: true })`:
fails (duplicate-key error) when a record with the same pair is already
stored. -/
def insertAttendance (recs : List Attendance) (a : Attendance) :
    Except Unit (List Attendance) :=
  if recs.any (fun r => r.student == a.student && r.session == a.session)
  then .error ()
  else .ok (recs ++ [a])

/-- `Session.findByIdAndUpdate(sessionId, { $inc: { attendanceCount: d } })`. -/
def incCount (sessions : List Session) (sid : Nat) (d : Int) : List Session :=
  sessions.map fun s =>
    if s.id == sid then { s with attendanceCount := s.attendanceCount + d } else s

/-- One full scan-qr request against the stores: the pure decision, then
`attendance.save()` (which goes through the unique index), then the separate
`findByIdAndUpdate` `$inc` of `attendanceCount`. `incOk` models whether that
second operation succeeds; when it fails the handler answers 500 but the
already-saved record remains. -/
def scanQrExec (threshold : ℚ) (sessions : List Session)
    (recs : List Attendance) (user : UserDoc) (req : ScanReq) (now : Int)
    (incOk : Bool) : ScanResult × List Session × List Attendance :=
  match scanQr threshold sessions recs user req now with
  | .accepted r =>
    match insertAttendance recs r with
    | .error _ => (.serverError, sessions, recs)
    | .ok recs' =>
      if incOk then (.accepted r, incCount sessions req.sessionId 1, recs')
      else (.serverError, sessions, recs')
  | res => (res, sessions, recs)

/-- Combined state of the two collections. -/
structure Sys where
  sessions : List Session
  recs : List Attendance
  deriving DecidableEq, Repr

/-- One admission attempt arriving at the store. -/
structure Event where
  user : UserDoc
  req : ScanReq
  now : Int
  incOk : Bool
  deriving DecidableEq, Repr

/-- Apply one admission attempt to the state. -/
def stepSys (threshold : ℚ) (sys : Sys) (e : Event) : Sys × ScanResult :=
  match scanQrExec threshold sys.sessions sys.recs e.user e.req e.now e.incOk with
  | (res, ss, rs) => (⟨ss, rs⟩, res)

/-- Run a list of admission attempts in arrival order. -/
def runTrace (threshold : ℚ) (sys : Sys) (es : List Event) : Sys :=
  es.foldl (fun s e => (stepSys threshold s e).1) sys

/-- At most one attendance record per (student, session) pair. -/
def uniquePairs (recs : List Attendance) : Prop :=
  List.Pairwise (fun a b => ¬(a.student = b.student ∧ a.session = b.session)) recs

instance (recs : List Attendance) : Decidable (uniquePairs recs) :=
  List.instDecidablePairwise recs

/-! ## POST /api/sessions handler -/

/-- Failure modes of session creation. -/
inductive CreateErr where
  | invalidSchedule
  | pastDate
  deriving DecidableEq, Repr

/-- Validated body of POST /api/sessions (subject/description/location
omitted; `maxStudents` already defaulted to 100). -/
structure CreateReq where
  date : Int
  startMin : Nat
  endMin : Nat
  maxStudents : Nat
  deriving DecidableEq, Repr

/-- The POST /api/sessions handler: rejects when `start >= end`, rejects when
the session date precedes today's midnight, otherwise builds the session with
a freshly generated `qrToken` (uuidv4, passed in as `qrToken`),
`expiresAt = end + 30 minutes`, and the schema defaults
`isActive = true`, `attendanceCount = 0`. -/
def createSession (req : CreateReq) (teacher : Nat) (todayMidnight : Int)
    (qrToken : Nat) (newId : Nat) : Except CreateErr Session :=
  let start := req.date + (req.startMin : Int) * 60000
  let endT := req.date + (req.endMin : Int) * 60000
  if endT ≤ start then .error .invalidSchedule
  else if req.date < todayMidnight then .error .pastDate
  else .ok
    { id := newId, teacher := teacher, date := req.date,
      startMin := req.startMin, endMin := req.endMin, qrToken := qrToken,
      isActive := true, expiresAt := endT + 30 * 60000,
      maxStudents := req.maxStudents, attendanceCount := 0 }

/-! ## POST /api/sessions/:id/regenerate-qr handler -/

/-- Failure modes of QR regeneration. -/
inductive RegenErr where
  | notFound
  | accessDenied
  deriving DecidableEq, Repr

/-- The regenerate-qr handler: looks the session up by id, checks ownership,
replaces `qrToken` with the freshly generated token and saves; no other field
is touched and no activity or expiry condition is checked. Returns the
updated session and the updated store. -/
def regenerateQr (sessions : List Session) (sid userId newToken : Nat) :
    Except RegenErr (Session × List Session) :=
  match sessions.find? (fun s => s.id == sid) with
  | none => .error .notFound
  | some s =>
    if s.teacher ≠ userId then .error .accessDenied
    else
      let s' := { s with qrToken := newToken }
      .ok (s', sessions.map fun t => if t.id == sid then s' else t)

/-! ## Observations used to state the claims -/

/-- The response branch taken, with the response payload erased. -/
inductive DecisionTag where
  | invalidTicket
  | expired
  | notStarted
  | duplicate
  | faceNotRegistered
  | lowConfidence
  | accepted
  | serverError
  deriving DecidableEq, Repr

/-- Which response branch a scan outcome took. -/
def tagOf : ScanResult → DecisionTag
  | .invalidTicket => .invalidTicket
  | .expired => .expired
  | .notStarted => .notStarted
  | .duplicate _ => .duplicate
  | .faceNotRegistered => .faceNotRegistered
  | .lowConfidence => .lowConfidence
  | .accepted _ => .accepted
  | .serverError => .serverError

/-- The `isVerified` flag of the accepted record, when one was produced. -/
def verifiedOf : ScanResult → Option Bool
  | .accepted r => some r.isVerified
  | _ => none

/-- The spec groups not-found, token-mismatch, inactive and expired under
one `InvalidTicket` rejection; the handler answers 400 in both branches. -/
def rejectedAsInvalidTicket : ScanResult → Bool
  | .invalidTicket => true
  | .expired => true
  | _ => false

/-- The claimed independence of the admission decision from any
caller-supplied score: two presentations by the same user against the same
stores that agree on everything except the submitted `faceConfidence` take
the same response branch. -/
def biometricDecisionIgnoresCallerScore : Prop :=
  ∀ (threshold : ℚ) (sessions : List Session) (recs : List Attendance)
    (user : UserDoc) (req1 req2 : ScanReq) (now : Int),
    req1.sessionId = req2.sessionId → req1.token = req2.token →
    req1.method = req2.method →
    tagOf (scanQr threshold sessions recs user req1 now)
      = tagOf (scanQr threshold sessions recs user req2 now)

/-! ## Concrete documents for witnesses: a 09:00-10:00 session on day 0
(instants in milliseconds from that day's midnight), a student, requests -/

/-- A session scheduled 09:00-10:00, active, expiring 10:30. -/
def sessW : Session :=
  { id := 1, teacher := 10, date := 0, startMin := 540, endMin := 600,
    qrToken := 77, isActive := true, expiresAt := 37800000,
    maxStudents := 100, attendanceCount := 0 }

/-- A revoked session already past its expiry. -/
def sessRevoked : Session :=
  { id := 2, teacher := 10, date := 0, startMin := 540, endMin := 600,
    qrToken := 78, isActive := false, expiresAt := -1,
    maxStudents := 100, attendanceCount := 3 }

/-- A student with a registered 128-length face embedding is irrelevant to
these scenarios; a one-entry embedding keeps evaluation cheap. -/
def userW : UserDoc := { id := 5, faceEmbedding := [1] }

/-- A token-only presentation of sessW's QR payload. -/
def reqQrW : ScanReq :=
  { sessionId := 1, token := 77, method := .qr_code, faceConfidence := none }

/-- A biometric presentation carrying confidence 0.9. -/
def reqFaceHiW : ScanReq :=
  { sessionId := 1, token := 77, method := .face_recognition,
    faceConfidence := some (mkRat 9 10) }

/-- A biometric presentation carrying confidence 0.5. -/
def reqFaceLoW : ScanReq :=
  { sessionId := 1, token := 77, method := .face_recognition,
    faceConfidence := some (mkRat 5 10) }

/-- A biometric presentation carrying confidence 0.65. -/
def reqFaceMidW : ScanReq :=
  { sessionId := 1, token := 77, method := .face_recognition,
    faceConfidence := some (mkRat 65 100) }

/-- 09:05 on day 0, in milliseconds. -/
def nineOhFive : Int := 32700000

/-- The record stored for userW's token-only scan of sessW at 09:05. -/
def recW : Attendance :=
  { student := 5, session := 1, status := .present, markedAt := 32700000,
    method := .qr_code, faceConfidence := none, isVerified := true }

/-- The record the decision layer computes for the 0.65-confidence scan at
09:05: accepted, unverified. -/
def recFaceMidW : Attendance :=
  { student := 5, session := 1, status := .present, markedAt := 32700000,
    method := .face_recognition, faceConfidence := some (mkRat 65 100),
    isVerified := false }

/-- The record the pre-save middleware would store for a token-only scan at
09:20, had the session path been populated: classified late. -/
def recLateW : Attendance :=
  { student := 5, session := 1, status := .late, markedAt := 33600000,
    method := .qr_code, faceConfidence := none, isVerified := true }

/-! ## The save as it actually executes

The scan-qr handler builds the attendance document with `session: sessionId`
and calls `attendance.save()` before any `populate`. The pre-save middleware
reads the `isLate` virtual, which passes its `!this.session` guard (an
ObjectId is truthy) and then evaluates `this.session.startTime.split`. On an
unpopulated ObjectId, `startTime` is undefined, so the getter throws a
TypeError; the throw rejects the save and the handler answers 500 from its
catch block. The definitions below model this path without the
resolved-session idealization used by `preSave` above. -/

/-- A JS runtime exception surfaced from the middleware. -/
inductive JsErr where
  | typeError
  deriving DecidableEq, Repr

/-- The value of an attendance document's `session` path as the pre-save
middleware sees it: the raw ObjectId as stored, or the populated session
document (the handler populates only after the save). -/
inductive SessionRef where
  | objectId (sid : Nat)
  | populated (s : Session)
  deriving DecidableEq, Repr

/-- The `isLate` virtual as it actually evaluates: false when the session
path is absent; on an unpopulated ObjectId, `this.session.startTime` is
undefined and `.split` throws a TypeError; on a populated document it
compares `markedAt` against the session start plus 15 minutes. -/
def isLateRun : Option SessionRef → Attendance → Except JsErr Bool
  | none, _ => .ok false
  | some (.objectId _), _ => .error .typeError
  | some (.populated s), a =>
    .ok (decide (sessionStart s + 15 * 60000 < a.markedAt))

/-- The pre-save middleware as it actually runs: a throw in the `isLate`
getter rejects the save; otherwise a `present` status is rewritten to `late`
when the virtual holds. -/
def preSaveRun (sess : Option SessionRef) (a : Attendance) :
    Except JsErr Attendance :=
  match isLateRun sess a with
  | .error e => .error e
  | .ok late =>
    .ok (if late && (a.status == .present) then { a with status := .late } else a)

/-- One full scan-qr request with the save modelled as it actually executes:
the handler's checks and `isVerified` computation (the decision layer of
`scanQr`), then `attendance.save()`, whose pre-save middleware runs on the
document whose `session` path is the raw sessionId ObjectId. A middleware
throw rejects the save: the handler answers 500 and neither store changes.
The branches after a successful save mirror the rest of the handler (the
unique-index insert, then the separate `$inc`, whose success `incOk`
models). -/
def scanQrRun (threshold : ℚ) (sessions : List Session)
    (recs : List Attendance) (user : UserDoc) (req : ScanReq) (now : Int)
    (incOk : Bool) : ScanResult × List Session × List Attendance :=
  match scanQr threshold sessions recs user req now with
  | .accepted r =>
    match preSaveRun (some (.objectId req.sessionId))
        (mkAttendance user.id req.sessionId req.method req.faceConfidence
          r.isVerified now) with
    | .error _ => (.serverError, sessions, recs)
    | .ok saved =>
      match insertAttendance recs saved with
      | .error _ => (.serverError, sessions, recs)
      | .ok recs' =>
        if incOk then (.accepted saved, incCount sessions req.sessionId 1, recs')
        else (.serverError, sessions, recs')
  | res => (res, sessions, recs)

/-! ## Helper lemmas -/

/-- Record built by the handler, with the pre-save classification resolved. -/
lemma preSave_mkAttendance (s : Session) (uid sid : Nat) (m : Method)
    (fc : Option ℚ) (v : Bool) (now : Int) :
    preSave (some s) (mkAttendance uid sid m fc v now) =
      { student := uid, session := sid,
        status := if sessionStart s + 15 * 60000 < now then .late else .present,
        markedAt := now, method := m, faceConfidence := fc, isVerified := v } := by
  simp only [preSave, isLate, mkAttendance, beq_self_eq_true, Bool.and_true,
    decide_eq_true_eq]
  split
  next => rfl
  next => rfl

/-- The pre-save middleware touches only `status`. -/
lemma preSave_isVerified (sess : Option Session) (a : Attendance) :
    (preSave sess a).isVerified = a.isVerified := by
  unfold preSave
  split <;> rfl

/-- Inversion of an accepted scan: every check passed and the stored record
has the handler-built shape. -/
lemma scanQr_accepted_inv (threshold : ℚ) (sessions : List Session)
    (recs : List Attendance) (user : UserDoc) (req : ScanReq) (now : Int)
    (r : Attendance)
    (hacc : scanQr threshold sessions recs user req now = .accepted r) :
    ∃ s, findSession sessions req.sessionId req.token = some s
      ∧ ¬(s.expiresAt < now) ∧ ¬(now < sessionStart s)
      ∧ findAttendance recs user.id req.sessionId = none
      ∧ r.student = user.id ∧ r.session = req.sessionId ∧ r.markedAt = now
      ∧ r.method = req.method
      ∧ r.status = (if sessionStart s + 15 * 60000 < now then .late else .present)
      ∧ (req.method = .face_recognition →
          user.faceEmbedding.length ≠ 0
          ∧ ∃ c, req.faceConfidence = some c ∧ ¬(c = 0 ∨ c < threshold)
              ∧ r.faceConfidence = some c
              ∧ r.isVerified = decide (VERIFIED_THRESHOLD ≤ c))
      ∧ (req.method ≠ .face_recognition →
          r.faceConfidence = req.faceConfidence ∧ r.isVerified = true) := by
  unfold scanQr at hacc
  split at hacc
  · simp at hacc
  rename_i s heq
  split at hacc
  · simp at hacc
  rename_i hexp
  split at hacc
  · simp at hacc
  rename_i hns
  split at hacc
  · simp at hacc
  rename_i ha
  refine ⟨s, heq, hexp, hns, ha, ?_⟩
  split at hacc
  · rename_i hm
    split at hacc
    · simp at hacc
    rename_i hemb
    split at hacc
    · simp at hacc
    rename_i c hfc
    split at hacc
    · simp at hacc
    rename_i hc
    rw [preSave_mkAttendance] at hacc
    injection hacc with h
    subst h
    refine ⟨rfl, rfl, rfl, hm.symm, rfl, fun _ => ⟨hemb, c, hfc, hc, rfl, rfl⟩, ?_⟩
    intro hne
    exact absurd hm hne
  · rename_i x hnotface
    rw [preSave_mkAttendance] at hacc
    injection hacc with h
    subst h
    exact ⟨rfl, rfl, rfl, rfl, rfl, fun hface => absurd hface hnotface,
      fun _ => ⟨rfl, rfl⟩⟩

/-- The duplicate lookup finds nothing exactly when no stored record has the
pair. -/
lemma findAttendance_none_iff (recs : List Attendance) (student sid : Nat) :
    findAttendance recs student sid = none
      ↔ ∀ a ∈ recs, ¬(a.student = student ∧ a.session = sid) := by
  simp [findAttendance, List.find?_eq_none]

/-- The unique-index insert succeeds when the pair is absent. -/
lemma insertAttendance_ok (recs : List Attendance) (a : Attendance)
    (h : ∀ r ∈ recs, ¬(r.student = a.student ∧ r.session = a.session)) :
    insertAttendance recs a = .ok (recs ++ [a]) := by
  unfold insertAttendance
  rw [if_neg]
  simp only [List.any_eq_true, Bool.and_eq_true, beq_iff_eq, not_exists, not_and]
  intro r hr h1 h2
  exact h r hr ⟨h1, h2⟩

/-- Appending a record with a fresh pair keeps the store duplicate-free. -/
lemma uniquePairs_append (recs : List Attendance) (a : Attendance)
    (hu : uniquePairs recs)
    (h : ∀ r ∈ recs, ¬(r.student = a.student ∧ r.session = a.session)) :
    uniquePairs (recs ++ [a]) := by
  unfold uniquePairs at *
  rw [List.pairwise_append]
  refine ⟨hu, List.pairwise_singleton _ _, ?_⟩
  intro x hx b hb
  rw [List.mem_singleton] at hb
  subst hb
  exact h x hx

/-- The attendance store after one request: unchanged, or extended with the
accepted record, whose pair was absent from the store. -/
lemma scanQrExec_recs (threshold : ℚ) (sessions : List Session)
    (recs : List Attendance) (user : UserDoc) (req : ScanReq) (now : Int)
    (incOk : Bool) :
    (scanQrExec threshold sessions recs user req now incOk).2.2 = recs
    ∨ ∃ r, scanQr threshold sessions recs user req now = .accepted r
        ∧ (scanQrExec threshold sessions recs user req now incOk).2.2 = recs ++ [r]
        ∧ ∀ x ∈ recs, ¬(x.student = r.student ∧ x.session = r.session) := by
  cases hres : scanQr threshold sessions recs user req now with
  | accepted r =>
    obtain ⟨s, _, _, _, hnone, hstu, hsess, _, _⟩ :=
      scanQr_accepted_inv threshold sessions recs user req now r hres
    have hall : ∀ x ∈ recs, ¬(x.student = r.student ∧ x.session = r.session) := by
      intro x hx hc
      exact (findAttendance_none_iff recs user.id req.sessionId).mp hnone x hx
        ⟨hstu ▸ hc.1, hsess ▸ hc.2⟩
    right
    refine ⟨r, rfl, ?_, hall⟩
    simp only [scanQrExec, hres, insertAttendance_ok recs r hall]
    cases incOk <;> rfl
  | invalidTicket => left; simp [scanQrExec, hres]
  | expired => left; simp [scanQrExec, hres]
  | notStarted => left; simp [scanQrExec, hres]
  | duplicate existing => left; simp [scanQrExec, hres]
  | faceNotRegistered => left; simp [scanQrExec, hres]
  | lowConfidence => left; simp [scanQrExec, hres]
  | serverError => left; simp [scanQrExec, hres]

/-- One admission attempt preserves the per-pair uniqueness invariant. -/
lemma stepSys_unique (threshold : ℚ) (sys : Sys) (e : Event)
    (hu : uniquePairs sys.recs) :
    uniquePairs ((stepSys threshold sys e).1).recs := by
  have hrecs := scanQrExec_recs threshold sys.sessions sys.recs e.user e.req
    e.now e.incOk
  rcases hx : scanQrExec threshold sys.sessions sys.recs e.user e.req e.now e.incOk
    with ⟨res, ss, rs⟩
  rw [hx] at hrecs
  unfold stepSys
  rw [hx]
  show uniquePairs rs
  rcases hrecs with h | ⟨r, _, h, hall⟩
  · have h' : rs = sys.recs := h
    rw [h']
    exact hu
  · have h' : rs = sys.recs ++ [r] := h
    rw [h']
    exact uniquePairs_append _ _ hu hall

/-- Any sequence of admission attempts preserves the uniqueness invariant. -/
lemma runTrace_unique (threshold : ℚ) (sys : Sys) (es : List Event)
    (hu : uniquePairs sys.recs) :
    uniquePairs (runTrace threshold sys es).recs := by
  induction es generalizing sys with
  | nil => exact hu
  | cons e es ih => exact ih _ (stepSys_unique threshold sys e hu)

/-! ## Claim theorems -/

/-- Claim C1: in every store state reachable by admission attempts, at most
one attendance record exists per (student, session) pair, whatever the
arrival order; and a presentation for a pair that already has a record is
answered with the duplicate rejection carrying the existing record, leaving
the stores unchanged instead of creating a second record. -/
theorem attendance_unique_and_duplicate_rejected :
    (∀ (threshold : ℚ) (sys : Sys) (es : List Event),
      uniquePairs sys.recs → uniquePairs (runTrace threshold sys es).recs)
    ∧ (∀ (threshold : ℚ) (sys : Sys) (u : UserDoc) (req : ScanReq) (now : Int)
        (incOk : Bool) (s : Session) (existing : Attendance),
        findSession sys.sessions req.sessionId req.token = some s →
        ¬(s.expiresAt < now) → ¬(now < sessionStart s) →
        findAttendance sys.recs u.id req.sessionId = some existing →
        stepSys threshold sys ⟨u, req, now, incOk⟩ = (sys, .duplicate existing)) := by
  constructor
  · exact runTrace_unique
  · intro threshold sys u req now incOk s existing hs hexp hns hdup
    have hscan : scanQr threshold sys.sessions sys.recs u req now
        = .duplicate existing := by
      simp only [scanQr, hs, if_neg hexp, if_neg hns, hdup]
    simp only [stepSys, scanQrExec, hscan]

/-- Witness for C1: two token-only scans of the same student against the same
session, in arrival order, leave a duplicate-free store; and a scan while the
pair is already recorded returns the duplicate rejection with that record. -/
theorem attendance_unique_and_duplicate_rejected_witness :
    uniquePairs (runTrace FACE_RECOGNITION_THRESHOLD ⟨[sessW], []⟩
      [⟨userW, reqQrW, nineOhFive, true⟩, ⟨userW, reqQrW, 32800000, true⟩]).recs
    ∧ stepSys FACE_RECOGNITION_THRESHOLD ⟨[sessW], [recW]⟩
        ⟨userW, reqQrW, 32800000, true⟩ = (⟨[sessW], [recW]⟩, .duplicate recW) := by
  exact ⟨attendance_unique_and_duplicate_rejected.1 _ _ _ (by decide),
    attendance_unique_and_duplicate_rejected.2 _ _ _ _ _ _ sessW recW
      (by decide) (by decide) (by decide) (by decide)⟩

/-- Claim C2 counterexample: the scan-qr handler computes no similarity
score; its accept/reject decision follows the caller-supplied
`faceConfidence`. Two biometric presentations by the same user, against the
same stores, identical except for the submitted confidence (0.9 versus 0.5),
take different response branches — refuting the claim that the decision does
not use any caller-supplied score. -/
theorem scanQr_uses_caller_confidence : ¬ biometricDecisionIgnoresCallerScore := by
  intro h
  have hc := h FACE_RECOGNITION_THRESHOLD [sessW] [] userW reqFaceHiW reqFaceLoW
    nineOhFive rfl rfl rfl
  revert hc
  decide

/-- Claim C2 amended: for a biometric attempt that passes the ticket,
not-started, duplicate and face-registration checks, the handler rejects with
the low-confidence response exactly when the caller-supplied `faceConfidence`
is absent, zero, or below the admission threshold (default 0.6); no
server-side similarity score is computed. -/
theorem lowConfidence_characterization (threshold : ℚ)
    (sessions : List Session) (recs : List Attendance) (user : UserDoc)
    (req : ScanReq) (now : Int) (s : Session)
    (hs : findSession sessions req.sessionId req.token = some s)
    (hexp : ¬(s.expiresAt < now)) (hns : ¬(now < sessionStart s))
    (ha : findAttendance recs user.id req.sessionId = none)
    (hm : req.method = .face_recognition)
    (hemb : user.faceEmbedding.length ≠ 0) :
    scanQr threshold sessions recs user req now = .lowConfidence
      ↔ (req.faceConfidence = none
          ∨ ∃ c, req.faceConfidence = some c ∧ (c = 0 ∨ c < threshold)) := by
  simp only [scanQr, hs, if_neg hexp, if_neg hns, ha, hm, if_neg hemb]
  cases hfc : req.faceConfidence with
  | none => simp
  | some c =>
    by_cases hc : c = 0 ∨ c < threshold
    · simp [hc]
    · simp [hc]

/-- Witness for the amended C2, at a 0.5-confidence presentation. -/
theorem lowConfidence_characterization_witness :
    scanQr FACE_RECOGNITION_THRESHOLD [sessW] [] userW reqFaceLoW nineOhFive
        = .lowConfidence
      ↔ (reqFaceLoW.faceConfidence = none
          ∨ ∃ c, reqFaceLoW.faceConfidence = some c
              ∧ (c = 0 ∨ c < FACE_RECOGNITION_THRESHOLD)) := by
  exact lowConfidence_characterization FACE_RECOGNITION_THRESHOLD [sessW] []
    userW reqFaceLoW nineOhFive sessW (by decide) (by decide) (by decide)
    (by decide) rfl (by decide)

/-- Claim C3 (code bug): the late/present derivation never executes on the
scan-qr path. The document is saved with the raw sessionId ObjectId in its
`session` path, so the `isLate` getter throws a TypeError inside the
pre-save middleware and the save is rejected: at a token-only scan 20
minutes after start — which the claim says is stored as `late` — the run
answers the server-error branch and stores nothing; had the session path
been populated, the middleware would have classified the record `late`
exactly as the claim states. -/
theorem late_derivation_crashes :
    isLateRun (some (.objectId 1)) (mkAttendance 5 1 .qr_code none true 33600000)
        = .error .typeError
    ∧ scanQrRun FACE_RECOGNITION_THRESHOLD [sessW] [] userW reqQrW 33600000 true
        = (.serverError, [sessW], [])
    ∧ preSaveRun (some (.populated sessW))
        (mkAttendance 5 1 .qr_code none true 33600000) = .ok recLateW := by
  exact ⟨rfl, by decide, by rfl⟩

/-- Claim C4: a ticket is admissible exactly when it is active and
now ≤ expiresAt (still admissible at the boundary instant, expired strictly
after); and a presentation against a ticket that is not found,
token-mismatched, inactive, or past expiry is rejected on the
invalid-ticket / expired branches the spec groups as InvalidTicket. -/
theorem ticket_admissibility :
    (∀ (s : Session) (now : Int),
      isValid s now = true ↔ (s.isActive = true ∧ now ≤ s.expiresAt))
    ∧ (∀ (s : Session) (now : Int), s.expiresAt < now → isValid s now = false)
    ∧ (∀ (sessions : List Session) (sid tok : Nat),
        findSession sessions sid tok = none ↔
          ∀ s ∈ sessions, ¬(s.id = sid ∧ s.qrToken = tok ∧ s.isActive = true))
    ∧ (∀ (threshold : ℚ) (sessions : List Session) (recs : List Attendance)
        (user : UserDoc) (req : ScanReq) (now : Int),
        findSession sessions req.sessionId req.token = none →
        scanQr threshold sessions recs user req now = .invalidTicket
        ∧ rejectedAsInvalidTicket (scanQr threshold sessions recs user req now)
            = true)
    ∧ (∀ (threshold : ℚ) (sessions : List Session) (recs : List Attendance)
        (user : UserDoc) (req : ScanReq) (now : Int) (s : Session),
        findSession sessions req.sessionId req.token = some s →
        s.expiresAt < now →
        scanQr threshold sessions recs user req now = .expired
        ∧ rejectedAsInvalidTicket (scanQr threshold sessions recs user req now)
            = true) := by
  refine ⟨?_, ?_, ?_, ?_, ?_⟩
  · intro s now
    simp [isValid, isExpired, not_lt]
  · intro s now h
    simp [isValid, isExpired, h]
  · intro sessions sid tok
    simp [findSession, List.find?_eq_none]
  · intro threshold sessions recs user req now h
    have h1 : scanQr threshold sessions recs user req now = .invalidTicket := by
      simp only [scanQr, h]
    exact ⟨h1, by rw [h1]; rfl⟩
  · intro threshold sessions recs user req now s hs hexp
    have h1 : scanQr threshold sessions recs user req now = .expired := by
      simp only [scanQr, hs, if_pos hexp]
    exact ⟨h1, by rw [h1]; rfl⟩

/-- Witness for C4: sessW at its exact expiry instant is still valid, one
millisecond later it is not; a wrong token is rejected as invalid, and a scan
one millisecond after expiry is rejected as expired. -/
theorem ticket_admissibility_witness :
    isValid sessW 37800000 = true
    ∧ isValid sessW 37800001 = false
    ∧ scanQr FACE_RECOGNITION_THRESHOLD [sessW] [] userW
        { sessionId := 1, token := 99, method := .qr_code,
          faceConfidence := none } nineOhFive = .invalidTicket
    ∧ scanQr FACE_RECOGNITION_THRESHOLD [sessW] [] userW reqQrW 37800001
        = .expired := by
  refine ⟨?_, ?_, ?_, ?_⟩
  · exact (ticket_admissibility.1 sessW 37800000).mpr ⟨rfl, by decide⟩
  · exact ticket_admissibility.2.1 sessW 37800001 (by decide)
  · exact (ticket_admissibility.2.2.2.1 FACE_RECOGNITION_THRESHOLD [sessW] []
      userW _ nineOhFive (by decide)).1
  · exact (ticket_admissibility.2.2.2.2 FACE_RECOGNITION_THRESHOLD [sessW] []
      userW reqQrW 37800001 sessW (by decide) (by decide)).1

/-- Helper for C5: the shape of a successfully created session. -/
lemma createSession_ok_inv (req : CreateReq) (teacher : Nat)
    (todayMidnight : Int) (qrToken newId : Nat) (s : Session)
    (hok : createSession req teacher todayMidnight qrToken newId = .ok s) :
    s = { id := newId, teacher := teacher, date := req.date,
          startMin := req.startMin, endMin := req.endMin, qrToken := qrToken,
          isActive := true,
          expiresAt := req.date + (req.endMin : Int) * 60000 + 30 * 60000,
          maxStudents := req.maxStudents, attendanceCount := 0 } := by
  simp only [createSession] at hok
  split at hok
  · simp at hok
  split at hok
  · simp at hok
  injection hok with h
  exact h.symm

/-- Claim C5: session creation fails with the invalid-schedule error exactly
when the schedule end is not after the start; otherwise it fails with the
past-date error exactly when the session date precedes today's midnight; on
success the created ticket carries the freshly generated token (unique among
any stored tokens it is fresh for), expiresAt = schedule end + 30 minutes,
isActive = true and attendanceCount = 0. -/
theorem createSession_spec (req : CreateReq) (teacher : Nat)
    (todayMidnight : Int) (qrToken newId : Nat) :
    (createSession req teacher todayMidnight qrToken newId
        = .error .invalidSchedule
      ↔ req.date + (req.endMin : Int) * 60000
          ≤ req.date + (req.startMin : Int) * 60000)
    ∧ (req.date + (req.startMin : Int) * 60000
          < req.date + (req.endMin : Int) * 60000 →
        (createSession req teacher todayMidnight qrToken newId
            = .error .pastDate
          ↔ req.date < todayMidnight))
    ∧ (∀ s, createSession req teacher todayMidnight qrToken newId = .ok s →
        s.qrToken = qrToken ∧ s.isActive = true ∧ s.attendanceCount = 0
        ∧ s.expiresAt = req.date + (req.endMin : Int) * 60000 + 30 * 60000
        ∧ s.teacher = teacher ∧ s.date = req.date ∧ s.startMin = req.startMin
        ∧ s.endMin = req.endMin)
    ∧ (∀ (sessions : List Session) (s : Session),
        (∀ t ∈ sessions, t.qrToken ≠ qrToken) →
        createSession req teacher todayMidnight qrToken newId = .ok s →
        ∀ t ∈ sessions, t.qrToken ≠ s.qrToken) := by
  refine ⟨?_, ?_, ?_, ?_⟩
  · by_cases he : req.date + (req.endMin : Int) * 60000
        ≤ req.date + (req.startMin : Int) * 60000
    · simp [createSession, he]
    · by_cases hp : req.date < todayMidnight <;> simp [createSession, he, hp]
  · intro hlt
    have he : ¬(req.date + (req.endMin : Int) * 60000
        ≤ req.date + (req.startMin : Int) * 60000) := by omega
    by_cases hp : req.date < todayMidnight <;> simp [createSession, he, hp]
  · intro s hok
    rw [createSession_ok_inv req teacher todayMidnight qrToken newId s hok]
    exact ⟨rfl, rfl, rfl, rfl, rfl, rfl, rfl, rfl⟩
  · intro sessions s hfresh hok t ht
    rw [createSession_ok_inv req teacher todayMidnight qrToken newId s hok]
    exact hfresh t ht

/-- Witness for C5: a 09:00-10:00 session on day 0 created on day 0 — not a
past date — and the session it produces is exactly sessW. -/
theorem createSession_spec_witness :
    (createSession ⟨0, 540, 600, 100⟩ 10 0 77 1 = .error .pastDate
      ↔ (0 : Int) < 0)
    ∧ sessW.qrToken = 77 ∧ sessW.isActive = true
    ∧ sessW.attendanceCount = 0 := by
  have h2 := (createSession_spec ⟨0, 540, 600, 100⟩ 10 0 77 1).2.1 (by decide)
  have h3 := (createSession_spec ⟨0, 540, 600, 100⟩ 10 0 77 1).2.2.1 sessW rfl
  exact ⟨h2, h3.1, h3.2.1, h3.2.2.1⟩

/-- Claim C6 (code bug): a biometric attempt with confidence 0.65 — which
the claim says produces an accepted record with verified = false — passes
every check, and the handler indeed computes isVerified = false by the 0.8
rule (first conjunct, the decision layer), but the save is then rejected by
the pre-save TypeError: the run answers the server-error branch and stores
no record (second conjunct), and a 0.9-confidence attempt crashes the same
way instead of storing a verified record (third conjunct). -/
theorem midscore_admission_crashes :
    scanQr FACE_RECOGNITION_THRESHOLD [sessW] [] userW reqFaceMidW nineOhFive
      = .accepted recFaceMidW
    ∧ scanQrRun FACE_RECOGNITION_THRESHOLD [sessW] [] userW reqFaceMidW
        nineOhFive true = (.serverError, [sessW], [])
    ∧ scanQrRun FACE_RECOGNITION_THRESHOLD [sessW] [] userW reqFaceHiW
        nineOhFive true = (.serverError, [sessW], []) := by
  exact ⟨by decide, by decide, by decide⟩

/-- Claim C7: no admission attempt ever leaves a partial state — after any
scan-qr request the attendance store changed exactly when the session store
changed. In fact neither ever changes: the save is rejected inside the
pre-save middleware before the insert, so the record creation and the count
increment (whether the `$inc` would succeed or not) are both never applied,
and no state with a record but no incremented count, or vice versa, is
reachable. -/
theorem admission_no_partial_state (threshold : ℚ) (sessions : List Session)
    (recs : List Attendance) (user : UserDoc) (req : ScanReq) (now : Int)
    (incOk : Bool) :
    ((scanQrRun threshold sessions recs user req now incOk).2.2 = recs
      ↔ (scanQrRun threshold sessions recs user req now incOk).2.1 = sessions)
    ∧ (scanQrRun threshold sessions recs user req now incOk).2.1 = sessions
    ∧ (scanQrRun threshold sessions recs user req now incOk).2.2 = recs := by
  cases hres : scanQr threshold sessions recs user req now with
  | accepted r => simp [scanQrRun, hres, preSaveRun, isLateRun]
  | invalidTicket => simp [scanQrRun, hres]
  | expired => simp [scanQrRun, hres]
  | notStarted => simp [scanQrRun, hres]
  | duplicate existing => simp [scanQrRun, hres]
  | faceNotRegistered => simp [scanQrRun, hres]
  | lowConfidence => simp [scanQrRun, hres]
  | serverError => simp [scanQrRun, hres]

/-- Claim C8: the similarity scorer is symmetric — for vectors of equal
length, score(a,b) = score(b,a), for any square-root function. -/
theorem calculateCosineSimilarity_symm (sqrtf : ℚ → ℚ) (a b : List ℚ)
    (h : a.length = b.length) :
    calculateCosineSimilarity sqrtf a b = calculateCosineSimilarity sqrtf b a := by
  have hd : dotProduct a b = dotProduct b a := by
    unfold dotProduct
    rw [List.zipWith_comm_of_comm (fun x y => x * y) mul_comm]
  unfold calculateCosineSimilarity
  rw [h, hd]
  by_cases h1 : sqrtf (sumSquares a) = 0 ∨ sqrtf (sumSquares b) = 0
  · rcases h1 with h1 | h1 <;> simp [h1]
  · obtain ⟨ha1, hb1⟩ := not_or.mp h1
    simp [ha1, hb1, mul_comm]

/-- Witness for C8 at two concrete equal-length vectors. -/
theorem calculateCosineSimilarity_symm_witness :
    ([1, 2] : List ℚ).length = ([3, 4] : List ℚ).length
    ∧ calculateCosineSimilarity id [1, 2] [3, 4]
        = calculateCosineSimilarity id [3, 4] [1, 2] :=
  ⟨rfl, calculateCosineSimilarity_symm id [1, 2] [3, 4] rfl⟩

/-- Claim C9: for a token-only presentation, the response branch taken and
the verified flag of any accepted record do not depend on the subject's
stored face embedding or on any submitted faceConfidence. -/
theorem token_only_noninterference (threshold : ℚ) (sessions : List Session)
    (recs : List Attendance) (uid : Nat) (e1 e2 : List ℚ) (sid tok : Nat)
    (fc1 fc2 : Option ℚ) (now : Int) :
    tagOf (scanQr threshold sessions recs ⟨uid, e1⟩ ⟨sid, tok, .qr_code, fc1⟩ now)
      = tagOf (scanQr threshold sessions recs ⟨uid, e2⟩ ⟨sid, tok, .qr_code, fc2⟩ now)
    ∧ verifiedOf (scanQr threshold sessions recs ⟨uid, e1⟩ ⟨sid, tok, .qr_code, fc1⟩ now)
      = verifiedOf (scanQr threshold sessions recs ⟨uid, e2⟩ ⟨sid, tok, .qr_code, fc2⟩ now) := by
  simp only [scanQr]
  cases findSession sessions sid tok with
  | none => exact ⟨rfl, rfl⟩
  | some s =>
    by_cases hexp : s.expiresAt < now
    · simp only [if_pos hexp]
      exact ⟨trivial, trivial⟩
    by_cases hns : now < sessionStart s
    · simp only [if_neg hexp, if_pos hns]
      exact ⟨trivial, trivial⟩
    simp only [if_neg hexp, if_neg hns]
    cases findAttendance recs uid sid with
    | some existing => exact ⟨rfl, rfl⟩
    | none =>
      refine ⟨rfl, ?_⟩
      show some (preSave (some s) (mkAttendance uid sid .qr_code fc1 true now)).isVerified
        = some (preSave (some s) (mkAttendance uid sid .qr_code fc2 true now)).isVerified
      rw [preSave_isVerified, preSave_isVerified]
      rfl

/-- Claim C10: QR regeneration requires only that the session exists and is
owned by the caller — no activity or expiry condition — and it changes the
token while leaving expiry, activity, schedule fields and the attendance
count untouched. -/
theorem regenerateQr_frame (sessions : List Session) (sid uid tok : Nat)
    (s : Session)
    (hfind : sessions.find? (fun t => t.id == sid) = some s)
    (hown : s.teacher = uid) :
    regenerateQr sessions sid uid tok
      = .ok ({ s with qrToken := tok },
          sessions.map fun t =>
            if t.id == sid then { s with qrToken := tok } else t)
    ∧ ({ s with qrToken := tok } : Session).qrToken = tok
    ∧ ({ s with qrToken := tok } : Session).expiresAt = s.expiresAt
    ∧ ({ s with qrToken := tok } : Session).isActive = s.isActive
    ∧ ({ s with qrToken := tok } : Session).date = s.date
    ∧ ({ s with qrToken := tok } : Session).startMin = s.startMin
    ∧ ({ s with qrToken := tok } : Session).endMin = s.endMin
    ∧ ({ s with qrToken := tok } : Session).attendanceCount
        = s.attendanceCount := by
  refine ⟨?_, rfl, rfl, rfl, rfl, rfl, rfl, rfl⟩
  simp only [regenerateQr, hfind, if_neg (not_not_intro hown)]

/-- Witness for C10: regeneration succeeds on a revoked session that is
already past its expiry. -/
theorem regenerateQr_frame_witness :
    sessRevoked.isActive = false ∧ sessRevoked.expiresAt < 0
    ∧ regenerateQr [sessRevoked] 2 10 99
        = .ok ({ sessRevoked with qrToken := 99 },
            [sessRevoked].map fun t =>
              if t.id == 2 then { sessRevoked with qrToken := 99 } else t) :=
  ⟨rfl, by decide,
    (regenerateQr_frame [sessRevoked] 2 10 99 sessRevoked (by decide) rfl).1⟩

end SIH

